import Mathlib

/-!
Shallow embedding of the build-orchestration script `setup.py` of the
go-jsonnet Python bindings (vendored under
`vendor/github.com/google/go-jsonnet/setup.py`).

The script has three parts:
* `get_version` scans the lines of `vm.go` for a version constant;
* `BuildJsonnetExt.run` spawns one `go build` subprocess, waits for it,
  raises on nonzero exit, and otherwise delegates to the inherited
  `build_ext.run`;
* `NoopTestCommand` replaces the `test` command with a print-only stub.

Lines of text files are modelled as `List Char`; a file is a list of
lines.  Python exceptions are modelled with `Except`.
-/

namespace Setup

abbrev Chars := List Char

/-- `isPrefixCh n h` is true iff `n` is a prefix of `h` (Boolean, by
character equality). -/
def isPrefixCh : Chars → Chars → Bool
  | [], _ => true
  | _ :: _, [] => false
  | a :: as, b :: bs => a = b && isPrefixCh as bs

/-- `containsTok needle hay` models Python `needle in hay` on strings:
true iff `needle` occurs as a contiguous substring of `hay`. -/
def containsTok (needle : Chars) : Chars → Bool
  | [] => needle.isEmpty
  | c :: cs => isPrefixCh needle (c :: cs) || containsTok needle cs

/-- Models `line.partition('=')[2]`: everything after the first `'='`,
or the empty string when the line has no `'='`. -/
def afterFirstEq : Chars → Chars
  | [] => []
  | c :: cs => if c = '=' then cs else afterFirstEq cs

/-- The character set of Python `strip('\n "')`. -/
def isStripChar (c : Char) : Bool :=
  c = '\n' || c = ' ' || c = '"'

/-- Models `s.strip('\n "')`: drop characters of the set from both
ends. -/
def stripEnds (l : Chars) : Chars :=
  ((l.dropWhile isStripChar).reverse.dropWhile isStripChar).reverse

/-- The guard `'const' in line and 'version' in line` of
`get_version`'s loop (case-sensitive substring tests, as in the
source). -/
def lineMatches (line : Chars) : Bool :=
  containsTok "const".data line && containsTok "version".data line

/-- `v_code = line.partition('=')[2].strip('\n "')`. -/
def vCode (line : Chars) : Chars :=
  stripEnds (afterFirstEq line)

/-- Python runtime errors reachable in `get_version`: indexing an empty
string (`v_code[0]`) raises `IndexError`. -/
inductive PyErr
  | indexError
deriving DecidableEq, Repr

/-- `get_version`, embedded over the list of lines of the scanned file.
Mirrors the source loop: for each line passing `lineMatches`, compute
`vCode`; indexing `v_code[0]` on an empty token raises; when the token
starts with `'v'` return its tail; otherwise fall through to the next
line.  After the loop, `return None`. -/
def get_version : List Chars → Except PyErr (Option Chars)
  | [] => .ok none
  | line :: rest =>
    if lineMatches line then
      match vCode line with
      | [] => .error .indexError
      | c :: cs => if c = 'v' then .ok (some cs) else get_version rest
    else get_version rest

/-! ## Extension target and the overridden `build_ext` command

`DIR` is computed at run time (`os.path.abspath(os.path.dirname(__file__))`),
so definitions below are parameterised by it. -/

/-- `MODULE_SOURCES = ['python/_jsonnet.c']`. -/
def MODULE_SOURCES : List Chars := ["python/_jsonnet.c".data]

/-- `LIB_DIR = DIR + '/c-bindings'`. -/
def LIB_DIR (dir : Chars) : Chars := dir ++ "/c-bindings".data

/-- The fields of a `setuptools.Extension` that `setup.py` sets. -/
structure Extension where
  name : Chars
  sources : List Chars
  extra_objects : List Chars
  include_dirs : List Chars
  language : Chars
deriving DecidableEq, Repr

/-- The module-level `jsonnet_ext = Extension('_gojsonnet', ...)`. -/
def jsonnet_ext (dir : Chars) : Extension :=
  { name := "_gojsonnet".data
    sources := MODULE_SOURCES
    extra_objects := [LIB_DIR dir ++ "/libgojsonnet.a".data]
    include_dirs := ["cpp-jsonnet/include".data]
    language := "c++".data }

/-- Outcome of `Popen(['go', 'build', ...])` followed by `p.wait()`:
either the toolchain executable is absent (`Popen` raises
`FileNotFoundError`), or the process terminates with a return code.
A process killed by a signal terminates with a negative return code. -/
inductive SpawnOutcome
  | execNotFound
  | exited (returncode : Int)
deriving DecidableEq, Repr

/-- Observable build-step actions, in the order they are performed. -/
inductive BuildEvent
  /-- The single `Popen` call (arguments and working directory). -/
  | spawnProcess (args : List Chars) (cwd : Chars)
  /-- `p.wait()` returned, i.e. the spawned process has terminated. -/
  | waitProcess
  /-- The inherited `build_ext.run`, which compiles the distribution's
  `ext_modules`. -/
  | compileStep (exts : List Extension)
deriving DecidableEq, Repr

/-- Exceptions that `BuildJsonnetExt.run` lets escape to the caller. -/
inductive BuildError
  /-- `FileNotFoundError` raised by `Popen` when `go` is absent. -/
  | fileNotFoundError
  /-- `raise Exception('Could not build libgojsonnet.a')`. -/
  | exception (msg : Chars)
deriving DecidableEq, Repr

/-- The argument vector of the toolchain invocation. -/
def goBuildArgs : List Chars :=
  ["go".data, "build".data, "-o".data, "libgojsonnet.a".data,
   "-buildmode=c-archive".data]

/-- The message of the exception raised on a nonzero return code. -/
def couldNotBuildMsg : Chars := "Could not build libgojsonnet.a".data

/-- `BuildJsonnetExt.run`, embedded as a function from the subprocess
outcome to the trace of performed actions paired with the escaping
exception (if any).  Mirrors the source: spawn once, wait, raise when
`p.returncode != 0`, otherwise delegate to `BuildExt.run(self)` whose
effect is compiling `ext_modules = [jsonnet_ext]`. -/
def BuildJsonnetExt_run (dir : Chars) (out : SpawnOutcome) :
    List BuildEvent × Option BuildError :=
  match out with
  | .execNotFound =>
      ([.spawnProcess goBuildArgs (LIB_DIR dir)], some .fileNotFoundError)
  | .exited code =>
      if code ≠ 0 then
        ([.spawnProcess goBuildArgs (LIB_DIR dir), .waitProcess],
         some (.exception couldNotBuildMsg))
      else
        ([.spawnProcess goBuildArgs (LIB_DIR dir), .waitProcess,
          .compileStep [jsonnet_ext dir]], none)

/-- True exactly on `compileStep` events. -/
def isCompile : BuildEvent → Bool
  | .compileStep _ => true
  | _ => false

/-- True exactly on `spawnProcess` events. -/
def isSpawn : BuildEvent → Bool
  | .spawnProcess _ _ => true
  | _ => false

/-! ## The overridden `test` command -/

/-- Observable actions of a `test` lifecycle command. -/
inductive TestEvent
  /-- Console output. -/
  | printMsg (msg : Chars)
  /-- Execution of a test (never emitted by the override). -/
  | runTest (name : Chars)
  /-- A success report (never emitted by the override). -/
  | reportSuccess
deriving DecidableEq, Repr

/-- The advisory printed by `NoopTestCommand.__init__`. -/
def noopTestMsg : Chars :=
  "_gojsonnet does not support running tests with \x27python setup.py test\x27. Please run \x27pytest\x27.".data

/-- `NoopTestCommand.__init__(self, dist)`: prints the advisory and does
nothing else, whatever the distribution/environment state `dist` is. -/
def NoopTestCommand_init (dist : Chars) : List TestEvent :=
  [.printMsg noopTestMsg]

end Setup

namespace Setup

/-! ## Helper lemmas -/

/-- Unfolding `get_version` on a non-matching head line. -/
theorem get_version_cons_nomatch (l : Chars) (rest : List Chars)
    (h : lineMatches l = false) :
    get_version (l :: rest) = get_version rest := by
  simp [get_version, h]

/-- Unfolding `get_version` on a matching head line whose stripped token
is nonempty: return the tail of the token when it starts with `'v'`,
otherwise keep scanning. -/
theorem get_version_cons_match (l : Chars) (rest : List Chars) (d : Char)
    (ds : Chars) (hm : lineMatches l = true) (hv : vCode l = d :: ds) :
    get_version (l :: rest)
      = if d = 'v' then .ok (some ds) else get_version rest := by
  simp [get_version, hm, hv]

end Setup

namespace Setup

/-! ## Claims about `get_version` (VersionExtractor) -/

/-- Claim C3 counterexample: the claim states first-match-wins over all
lines containing both tokens, but the code only returns from a matching
line whose stripped token starts with `'v'`.  Two files sharing the same
first matching line (`const version = x`) produce different results,
each derived from the second matching line. -/
theorem c3_first_match_counterexample :
    lineMatches "const version = x".data = true ∧
    get_version ["const version = x".data, "const version = va".data]
      = .ok (some "a".data) ∧
    get_version ["const version = x".data, "const version = vb".data]
      = .ok (some "b".data) :=
  ⟨rfl, rfl, rfl⟩

/-- Claim C3 (amended): first-match-wins holds among the lines the code
can return from.  If every earlier line either fails the two-token guard
or has a nonempty stripped token not starting with `'v'`, and line `l`
passes the guard with token `'v' :: cs`, then the result is `cs`,
derived from `l`, and no later line (`post` is arbitrary) influences
it. -/
theorem c3_first_returnable_match_wins (pre post : List Chars) (l : Chars)
    (cs : Chars)
    (hpre : ∀ p ∈ pre,
      lineMatches p = false ∨ ∃ d ds, vCode p = d :: ds ∧ d ≠ 'v')
    (hl : lineMatches l = true) (hv : vCode l = 'v' :: cs) :
    get_version (pre ++ l :: post) = .ok (some cs) := by
  induction pre with
  | nil =>
    rw [List.nil_append, get_version_cons_match l post 'v' cs hl hv, if_pos rfl]
  | cons p ps ih =>
    have htail : ∀ x ∈ ps,
        lineMatches x = false ∨ ∃ d ds, vCode x = d :: ds ∧ d ≠ 'v' :=
      fun x hx => hpre x (List.mem_cons_of_mem p hx)
    rcases hpre p (List.mem_cons_self p ps) with hp | ⟨d, ds, hds, hd⟩
    · rw [List.cons_append, get_version_cons_nomatch p _ hp]
      exact ih htail
    · rw [List.cons_append]
      cases hm : lineMatches p with
      | false =>
        rw [get_version_cons_nomatch p _ hm]
        exact ih htail
      | true =>
        rw [get_version_cons_match p _ d ds hm hds, if_neg hd]
        exact ih htail

/-- Claim C3 amended, witnessed at a concrete file: the first matching
line has the bare token `x`, the second matches with token `va`, and a
third matching line follows; the result is `a`, from the second line. -/
theorem c3_first_returnable_match_wins_witness :
    get_version (["const version = x".data] ++ "const version = va".data ::
      ["const version = vzz".data]) = .ok (some "a".data) :=
  c3_first_returnable_match_wins ["const version = x".data]
    ["const version = vzz".data] "const version = va".data "a".data
    (by
      intro p hp
      rw [List.mem_singleton] at hp
      subst hp
      exact Or.inr ⟨'x', [], rfl, by decide⟩)
    rfl rfl

/-- Claim C4 counterexample: a file consisting of exactly the line
`const someVersion = "v1.2.3"` makes `get_version` return `None`,
not `"1.2.3"`: the guard tests the lowercase substring `'version'`,
which does not occur in `someVersion`. -/
theorem c4_someVersion_counterexample :
    containsTok "version".data "const someVersion = \"v1.2.3\"".data
      = false ∧
    get_version ["const someVersion = \"v1.2.3\"".data] = .ok none ∧
    (Except.ok none : Except PyErr (Option Chars))
      ≠ .ok (some "1.2.3".data) :=
  ⟨rfl, rfl, by simp⟩

/-- Claim C4 (amended): for every file in which the first line containing
both `const` and the lowercase token `version` is
`const someversion = "v1.2.3"`, `get_version` returns `"1.2.3"` with the
leading `v` stripped. -/
theorem c4_version_line_extracted (pre post : List Chars)
    (hpre : ∀ p ∈ pre, lineMatches p = false) :
    get_version (pre ++ "const someversion = \"v1.2.3\"".data :: post)
      = .ok (some "1.2.3".data) := by
  induction pre with
  | nil =>
    rw [List.nil_append,
      get_version_cons_match "const someversion = \"v1.2.3\"".data post 'v'
        "1.2.3".data rfl rfl, if_pos rfl]
  | cons p ps ih =>
    rw [List.cons_append,
      get_version_cons_nomatch p _ (hpre p (List.mem_cons_self p ps))]
    exact ih fun x hx => hpre x (List.mem_cons_of_mem p hx)

/-- Claim C4 amended, witnessed at a concrete two-line file. -/
theorem c4_version_line_extracted_witness :
    get_version (["package main".data] ++
      "const someversion = \"v1.2.3\"".data :: [])
      = .ok (some "1.2.3".data) :=
  c4_version_line_extracted ["package main".data] [] (by decide)

/-- Claim C5 counterexample: on a file with no line containing both
tokens, `get_version` silently returns the default `None` — it does not
raise any error. -/
theorem c5_no_match_returns_none_counterexample :
    get_version ["package jsonnet".data] = .ok none ∧
    get_version ["package jsonnet".data] ≠ .error .indexError :=
  ⟨rfl, by simp [show get_version ["package jsonnet".data] = .ok none from rfl]⟩

/-- Claim C5 (amended): for every file in which no line contains both
`const` and `version`, `get_version` returns `None` (a silent default),
rather than raising a version-not-found error. -/
theorem c5_no_match_returns_none (file : List Chars)
    (h : ∀ l ∈ file, lineMatches l = false) :
    get_version file = .ok none := by
  induction file with
  | nil => rfl
  | cons l rest ih =>
    rw [get_version_cons_nomatch l rest (h l (List.mem_cons_self l rest))]
    exact ih fun x hx => h x (List.mem_cons_of_mem l hx)

/-- Claim C5 amended, witnessed at a concrete two-line file. -/
theorem c5_no_match_returns_none_witness :
    get_version ["package jsonnet".data, "var x = 1".data] = .ok none :=
  c5_no_match_returns_none ["package jsonnet".data, "var x = 1".data]
    (by decide)

end Setup

namespace Setup

/-- Claim C6 counterexample: the bare token is not accepted.  On a
matching line whose stripped token is `1.2.3` (no `v` prefix),
`get_version` does not return the token as-is; it skips the line and,
with nothing else to scan, yields `None`. -/
theorem c6_bare_token_counterexample :
    lineMatches "const version = \"1.2.3\"".data = true ∧
    vCode "const version = \"1.2.3\"".data = "1.2.3".data ∧
    get_version ["const version = \"1.2.3\"".data] = .ok none :=
  ⟨rfl, rfl, rfl⟩

/-- Claim C6 (amended): the single-character prefix is mandatory for a
line to yield a result, not optional.  On a matching line with nonempty
stripped token `d :: ds`: when `d = 'v'`, exactly that one leading
character is stripped and `ds` is returned; when `d ≠ 'v'`, the line is
skipped and scanning continues with the remaining lines — the bare
token is never returned as-is. -/
theorem c6_prefix_mandatory (rest : List Chars) (l : Chars) (d : Char)
    (ds : Chars) (hl : lineMatches l = true) (hv : vCode l = d :: ds) :
    get_version (l :: rest)
      = if d = 'v' then .ok (some ds) else get_version rest :=
  get_version_cons_match l rest d ds hl hv

/-- Claim C6 amended, witnessed on a matching line with token `1.2`. -/
theorem c6_prefix_mandatory_witness :
    lineMatches "const version = \"1.2\"".data = true ∧
    vCode "const version = \"1.2\"".data = '1' :: ".2".data ∧
    get_version ["const version = \"1.2\"".data]
      = if ('1' : Char) = 'v' then .ok (some ".2".data) else get_version [] :=
  ⟨rfl, rfl,
    c6_prefix_mandatory [] "const version = \"1.2\"".data '1' ".2".data
      rfl rfl⟩

/-- Claim C10: on a file whose first matching line has nothing after the
first `=` except whitespace and quote characters — or no `=` at all —
the stripped token is empty, indexing `v_code[0]` is out of bounds, and
`get_version` raises `IndexError` instead of returning a version or
`None`. -/
theorem c10_empty_token_raises :
    get_version ["const version = ".data] = .error .indexError ∧
    get_version ["const version = \"\"".data] = .error .indexError ∧
    get_version ["const version".data] = .error .indexError :=
  ⟨rfl, rfl, rfl⟩

/-! ## Claims about `BuildJsonnetExt.run` (ArchiveBuilder/BuildOrchestrator) -/

/-- Claim C1: if the spawned toolchain process exits with a nonzero
return code, the inherited compile step is never invoked (the trace has
no `compileStep` event) and the build fails by raising an exception to
the caller. -/
theorem c1_nonzero_exit_skips_compile (dir : Chars) (code : Int)
    (h : code ≠ 0) :
    (∀ e ∈ (BuildJsonnetExt_run dir (.exited code)).1, isCompile e = false) ∧
    (BuildJsonnetExt_run dir (.exited code)).2
      = some (.exception couldNotBuildMsg) := by
  simp [BuildJsonnetExt_run, h, isCompile]

/-- Claim C1, witnessed at return code 1. -/
theorem c1_nonzero_exit_skips_compile_witness :
    ((1 : Int) ≠ 0) ∧
    ((∀ e ∈ (BuildJsonnetExt_run [] (.exited 1)).1, isCompile e = false) ∧
      (BuildJsonnetExt_run [] (.exited 1)).2
        = some (.exception couldNotBuildMsg)) :=
  ⟨by decide, c1_nonzero_exit_skips_compile [] 1 (by decide)⟩

/-- Claim C2: if the toolchain process exits with return code 0, the
build step raises nothing and invokes the inherited compile step exactly
once, passing the previously assembled extension target `jsonnet_ext`
(module name, sources, include dirs, linked archive) unchanged. -/
theorem c2_success_compiles_once (dir : Chars) :
    (BuildJsonnetExt_run dir (.exited 0)).1.filter isCompile
      = [.compileStep [jsonnet_ext dir]] ∧
    (BuildJsonnetExt_run dir (.exited 0)).2 = none :=
  ⟨rfl, rfl⟩

/-- Claim C8: the three archive-build failure conditions — toolchain
executable not found, nonzero exit code, and process killed (a negative
return code) — all abort the build the same way: an exception escapes
and no `compileStep` event occurs.  Only the diagnostic (the error
value) differs. -/
theorem c8_all_failures_abort (dir : Chars) (out : SpawnOutcome)
    (h : out = .execNotFound ∨ ∃ c, out = .exited c ∧ c ≠ 0) :
    ((BuildJsonnetExt_run dir out).2).isSome = true ∧
    ∀ e ∈ (BuildJsonnetExt_run dir out).1, isCompile e = false := by
  rcases h with h | ⟨c, hc, hne⟩
  · subst h
    simp [BuildJsonnetExt_run, isCompile]
  · subst hc
    simp [BuildJsonnetExt_run, hne, isCompile]

/-- Claim C8, witnessed at the killed-process condition (return code
`-9`). -/
theorem c8_all_failures_abort_witness :
    ((SpawnOutcome.exited (-9)) = .execNotFound ∨
      ∃ c, (SpawnOutcome.exited (-9)) = .exited c ∧ c ≠ 0) ∧
    (((BuildJsonnetExt_run [] (.exited (-9))).2).isSome = true ∧
      ∀ e ∈ (BuildJsonnetExt_run [] (.exited (-9))).1, isCompile e = false) :=
  ⟨Or.inr ⟨-9, rfl, by decide⟩,
    c8_all_failures_abort [] (.exited (-9)) (Or.inr ⟨-9, rfl, by decide⟩)⟩

/-- Claim C9: every invocation performs exactly one `Popen` call (one
`spawnProcess` event in every trace, with the fixed arguments and
working directory — in particular no retry, whatever the outcome), and
when a process terminates the blocking `p.wait()` immediately follows
the spawn, before anything else (so no compile step begins until the
process has fully exited). -/
theorem c9_one_spawn_then_wait (dir : Chars) (out : SpawnOutcome) :
    ((BuildJsonnetExt_run dir out).1.filter isSpawn).length = 1 ∧
    (BuildJsonnetExt_run dir .execNotFound).1
      = [.spawnProcess goBuildArgs (LIB_DIR dir)] ∧
    ∀ code : Int, ((BuildJsonnetExt_run dir (.exited code)).1).take 2
      = [.spawnProcess goBuildArgs (LIB_DIR dir), .waitProcess] := by
  refine ⟨?_, rfl, ?_⟩
  · cases out with
    | execNotFound => rfl
    | exited code =>
      simp only [BuildJsonnetExt_run]
      split <;> rfl
  · intro code
    simp only [BuildJsonnetExt_run]
    split <;> rfl

end Setup

namespace Setup

/-! ## Claim about `NoopTestCommand` -/

/-- Claim C7: for every environment/distribution state, invoking the
overridden `test` lifecycle hook executes no test and never reports
success; its only effect is printing the advisory that directs the user
to the external runner `pytest`. -/
theorem c7_test_hook_is_advisory_only (dist : Chars) :
    NoopTestCommand_init dist = [.printMsg noopTestMsg] ∧
    ∀ e ∈ NoopTestCommand_init dist,
      (∀ n, e ≠ TestEvent.runTest n) ∧ e ≠ TestEvent.reportSuccess := by
  refine ⟨rfl, ?_⟩
  intro e he
  rw [NoopTestCommand_init, List.mem_singleton] at he
  subst he
  exact ⟨fun n h => TestEvent.noConfusion h, fun h => TestEvent.noConfusion h⟩

end Setup
